import Mathlib

/-!
Verification development for the session lifecycle and command execution
subsystem of persistent-shell-mcp. The definitions below are a shallow
embedding of src/command-executor.js and src/tmux-manager.js: JavaScript
string operations are modelled over Lean strings, the asynchronous waiting
loop is modelled with explicit elapsed time advancing by one poll interval
per iteration, and the external tmux backend together with the in-memory
registry maps is modelled as an explicit state record threaded through the
operations. Exit codes are JavaScript numbers, so a dedicated type with a
NaN point is used where parseInt may fail to parse.
-/

namespace PersistentShellMCP

/-- JavaScript runtime values that may arrive where the code expects a
command string. -/
inductive JSVal
  | str (s : String)
  | nullv
  | undef
  | num (n : Int)
  | boolean (b : Bool)
deriving DecidableEq, Repr

/-- The guard `!command || typeof command !== 'string'` at the top of
executeCommand: a value passes only when it is a string other than the empty
string (the empty string is falsy in JavaScript). -/
def isValidCommand : JSVal → Bool
  | JSVal.str s => s != ""
  | _ => false

/-- A JavaScript number restricted to what the embedded code produces for
exit codes: an integer or NaN (the result of parseInt on a non-numeric
string). -/
inductive JSNum
  | nan
  | int (n : Int)
deriving DecidableEq, Repr

/-- List-level prefix test, executable by kernel reduction. -/
def isPrefixList : List Char → List Char → Bool
  | [], _ => true
  | _ :: _, [] => false
  | a :: as, b :: bs => a = b && isPrefixList as bs

/-- List-level infix (contiguous substring) test. -/
def isInfixList (sub : List Char) : List Char → Bool
  | [] => sub.isEmpty
  | c :: rest => isPrefixList sub (c :: rest) || isInfixList sub rest

/-- JavaScript `String.prototype.startsWith`. -/
def jsStartsWith (s pre : String) : Bool := isPrefixList pre.data s.data

/-- JavaScript `String.prototype.includes`, used by `_isRecoverableError`
and `_createErrorResponse`. -/
def strContains (s sub : String) : Bool := isInfixList sub.data s.data

/-- Splitting a character list on a separator character, JS-style: the
separator is consumed and empty pieces are kept. -/
def splitOnCharAux (sep : Char) : List Char → List Char → List String
  | [], cur => [String.mk cur.reverse]
  | c :: rest, cur =>
    if c = sep then String.mk cur.reverse :: splitOnCharAux sep rest []
    else splitOnCharAux sep rest (c :: cur)

/-- JavaScript `String.prototype.split` for the single-character separators
the code uses (`'\n'` and `':'`). -/
def jsSplit (s : String) (sep : Char) : List String := splitOnCharAux sep s.data []

/-- JavaScript `Array.prototype.join('\n')`. -/
def jsJoin : List String → String
  | [] => ""
  | [x] => x
  | x :: y :: rest => x ++ "\n" ++ jsJoin (y :: rest)

/-- JavaScript `.replace(/\n$/, '')`: remove one trailing newline when
present. -/
def stripTrailingNewline (s : String) : String :=
  if s.data.getLast? = some '\n' then String.mk s.data.dropLast else s

/-- Accumulated value of a maximal run of leading decimal digits. -/
def digitsVal (ds : List Char) : Nat :=
  ds.foldl (fun a c => a * 10 + (c.toNat - 48)) 0

/-- Hexadecimal digit test, as parseInt accepts after a 0x prefix. -/
def isHexDigit (c : Char) : Bool :=
  c.isDigit || ('a' ≤ c && c ≤ 'f') || ('A' ≤ c && c ≤ 'F')

/-- Value of one hexadecimal digit. -/
def hexDigitVal (c : Char) : Nat :=
  if c.isDigit then c.toNat - 48
  else if 'a' ≤ c && c ≤ 'f' then c.toNat - 87
  else c.toNat - 55

/-- Accumulated value of a run of hexadecimal digits. -/
def hexVal (ds : List Char) : Nat :=
  ds.foldl (fun a c => a * 16 + hexDigitVal c) 0

/-- JavaScript `parseInt` with no radix argument, as `_readOutput` calls
it: skip leading whitespace, read an optional sign, then either a `0x` or
`0X` prefix followed by a maximal run of hexadecimal digits, or a maximal
run of decimal digits; none (NaN) when no digit is found. -/
def jsParseInt (s : String) : Option Int :=
  let cs := s.data.dropWhile Char.isWhitespace
  let signPair : Int × List Char :=
    match cs with
    | '-' :: rest => (-1, rest)
    | '+' :: rest => (1, rest)
    | _ => (1, cs)
  match signPair.2 with
  | '0' :: 'x' :: hs =>
    let ds := hs.takeWhile isHexDigit
    if ds.isEmpty then none else some (signPair.1 * (hexVal ds : Int))
  | '0' :: 'X' :: hs =>
    let ds := hs.takeWhile isHexDigit
    if ds.isEmpty then none else some (signPair.1 * (hexVal ds : Int))
  | rest =>
    let ds := rest.takeWhile Char.isDigit
    if ds.isEmpty then none else some (signPair.1 * (digitsVal ds : Int))

/-- `parseInt` as the JavaScript number stored into `exitCode`. -/
def jsParseIntNum (s : String) : JSNum :=
  match jsParseInt s with
  | some n => JSNum.int n
  | none => JSNum.nan

/-- Result shape of `_readOutput` in src/command-executor.js. -/
structure ExecOutput where
  stdout : String
  stderr : String
  exit_code : JSNum
deriving DecidableEq, Repr

/-- The `for (const line of lines)` loop of `_readOutput`: every line that
starts with `EXIT_CODE:` updates the exit code via parseInt on the text
after the first colon and is dropped; every other line is kept. The
try/catch around parseInt in the source is dead code (parseInt does not
throw), so it is not modelled. -/
def readOutputScan : List String → JSNum → List String → JSNum × List String
  | [], exitCode, acc => (exitCode, acc.reverse)
  | line :: rest, exitCode, acc =>
    if jsStartsWith line "EXIT_CODE:" then
      readOutputScan rest (jsParseIntNum ((jsSplit line ':').getD 1 "")) acc
    else
      readOutputScan rest exitCode (line :: acc)

/-- `_readOutput` of src/command-executor.js (lines 380-414): the argument
is the capture file content, or none when reading the file failed. The
initial exit code is the JavaScript literal 0 of the source. -/
def readOutput : Option String → ExecOutput
  | none => { stdout := "", stderr := "", exit_code := JSNum.int (-1) }
  | some output =>
    let scanned := readOutputScan (jsSplit output '\n') (JSNum.int 0) []
    { stdout := stripTrailingNewline (jsJoin scanned.2)
      stderr := ""
      exit_code := scanned.1 }

/-- Environment a single `_waitForCompletion` poll loop runs in: whether the
done-marker file exists, whether the tmux session still exists (abstracting
the `tmuxManager.sessionExists` probe), and what a read of the capture file
returns (none models a read failure), each as a function of elapsed
milliseconds. The 70 percent console warning of the source has no
observable effect and is not modelled. -/
structure WaitEnv where
  markerExists : Nat → Bool
  sessionAlive : Nat → Bool
  readCapture : Nat → Option String

/-- Outcome of `_waitForCompletion`: normal return, the thrown timeout
error (carrying the best-effort salvaged capture content), or the thrown
session-killed error. Each carries the elapsed milliseconds at which the
loop ended. -/
inductive WaitResult
  | completed (elapsed : Nat)
  | timedOut (salvaged : String) (elapsed : Nat)
  | sessionKilled (elapsed : Nat)
deriving DecidableEq, Repr

/-- The fixed poll interval of the loop, in milliseconds. -/
def pollIntervalMs : Nat := 100

/-- The polling loop of `_waitForCompletion` (src/command-executor.js lines
331-378). Each iteration checks the marker at the current elapsed time; on
absence, once elapsed strictly exceeds the timeout it throws session-killed
when a session id was supplied and the session no longer exists, and
otherwise throws timeout with the salvaged capture content (read when an
output file was supplied; read failures yield the empty string); below the
deadline it sleeps one poll interval and repeats. -/
def waitLoop (env : WaitEnv) (timeoutMs : Nat) (hasOutputFile checkSession : Bool)
    (elapsed : Nat) : WaitResult :=
  if env.markerExists elapsed then WaitResult.completed elapsed
  else if elapsed > timeoutMs then
    if checkSession && !env.sessionAlive elapsed then WaitResult.sessionKilled elapsed
    else WaitResult.timedOut
      (if hasOutputFile then (env.readCapture elapsed).getD "" else "") elapsed
  else waitLoop env timeoutMs hasOutputFile checkSession (elapsed + pollIntervalMs)
termination_by timeoutMs + 1 - elapsed
decreasing_by simp only [pollIntervalMs]; omega

/-- `_waitForCompletion(doneMarker, timeout, outputFile, sessionId)`: the
timeout argument is in seconds; `checkSession` is the truthiness of the
sessionId argument and `hasOutputFile` that of the outputFile argument. -/
def waitForCompletion (env : WaitEnv) (timeoutSecs : Nat)
    (hasOutputFile checkSession : Bool) : WaitResult :=
  waitLoop env (timeoutSecs * 1000) hasOutputFile checkSession 0

/-- A JavaScript Error as the engine decorates it: message text plus the
optional `recoverable`, `sessionKilled` and `partialOutput` properties. -/
structure JSError where
  message : String
  recoverable : Option Bool := none
  sessionKilled : Bool := false
  partialOutput : Option String := none
deriving DecidableEq, Repr

/-- The message fragments `_isRecoverableError` looks for. -/
def recoverableMessages : List String :=
  ["tmux send-keys failed", "timed out", "Session not found",
    "Connection refused", "No such session"]

/-- `_isRecoverableError` (src/command-executor.js lines 470-481). -/
def isRecoverableError (e : JSError) : Bool :=
  (e.recoverable == some true) ||
    recoverableMessages.any (fun msg => strContains e.message msg)

/-- The error object `_waitForCompletion` throws for each failing outcome,
with the exact message text, flags and attached partial output of the
source; a completed outcome throws nothing, so its image is a dummy. -/
def jsErrorOfWait (w : WaitResult) (timeoutSecs : Nat) (sessionId : String) : JSError :=
  match w with
  | WaitResult.completed _ => { message := "" }
  | WaitResult.timedOut salvaged _ =>
    { message := "Command timed out after " ++ toString timeoutSecs ++
        " seconds. Consider increasing timeout for long operations like builds or installs."
      recoverable := some true
      partialOutput := some salvaged }
  | WaitResult.sessionKilled _ =>
    { message := "Session " ++ sessionId ++ " was killed before command completion."
      recoverable := some false
      sessionKilled := true }

/-- Result of a successful `_executeCommandAttempt`. -/
structure AttemptSuccess where
  stdout : String
  stderr : String
  exit_code : JSNum
  session_id : String
  execution_id : String
  attempt : Nat
  working_directory : String
deriving DecidableEq, Repr

/-- Shape returned by `_createErrorResponse` (lines 536-561). -/
structure ErrorResponse where
  stdout : String
  stderr : String
  exit_code : JSNum
  session_id : String
  execution_id : String
  attempts : Nat
  recoverable : Bool
deriving DecidableEq, Repr

/-- `_createErrorResponse(command, sessionId, error, attempts)`; the command
argument is unused by the source body and therefore omitted here. -/
def createErrorResponse (sessionId : String) (error : JSError) (attempts : Nat) :
    ErrorResponse :=
  let errorMessage :=
    "Command failed after " ++ toString attempts ++ " attempts: " ++ error.message
  let recoveryGuidance :=
    if strContains error.message "timed out" then
      "SUGGESTION: Increase timeout parameter for long-running commands (builds, installs, etc.)"
    else if error.sessionKilled then
      "SUGGESTION: The tmux session was unexpectedly terminated. This might indicate an external issue or a problem with the command itself."
    else if strContains error.message "tmux send-keys failed" ||
        strContains error.message "No such session" then
      "SUGGESTION: Check if tmux is installed and session exists. Use tmux_session_exists to verify session state."
    else if strContains error.message "Connection refused" then
      "SUGGESTION: Tmux daemon may not be running. Try creating a new session with tmux_create_session."
    else
      "SUGGESTION: Check command syntax and session state. Use tmux_list_sessions to see available sessions."
  { stdout := error.partialOutput.getD ""
    stderr := errorMessage ++ "\n\n" ++ recoveryGuidance
    exit_code := JSNum.int (-1)
    session_id := sessionId
    execution_id := "failed"
    attempts := attempts
    recoverable := isRecoverableError error }

/-- One `_executeCommandAttempt` per attempt number, abstracted as an
environment: attempt k (counting from 1) either resolves to a result or
rejects with an error. Session creation, health validation, the sentinel
protocol and the registry mutations of an attempt all happen inside this
abstracted call; nothing of it is consulted before the loop body runs. -/
structure AttemptEnv where
  attempt : Nat → Except JSError AttemptSuccess

/-- `this.maxRetries` of the CommandExecutor constructor. -/
def maxRetries : Nat := 2

/-- How the retry loop of executeCommand ended: with a resolved attempt, or
with the loop broken after `made` attempts whose last error is recorded. -/
inductive LoopExit
  | succeeded (r : AttemptSuccess)
  | failed (made : Nat) (lastError : JSError)
deriving DecidableEq, Repr

/-- The `while (attempt <= this.maxRetries)` retry loop of executeCommand
(lines 218-259). `made` counts the attempts already made and `budget` is
`maxRetries + 1 - made`, carried as a structurally decreasing argument. A
failed `_recoverSession` call between attempts does not alter the control
flow (the subsequent break test is false exactly when the loop would
continue), so recovery is not modelled. The zero-budget base case mirrors
the loop exiting by a false while condition, which is unreachable from the
real entry point because the loop only continues while the next attempt
number stays within the retry budget. -/
def execLoop (env : AttemptEnv) (lastError : Option JSError) (made : Nat) :
    Nat → LoopExit
  | 0 => LoopExit.failed made (lastError.getD { message := "" })
  | budget + 1 =>
    match env.attempt (made + 1) with
    | Except.ok r => LoopExit.succeeded r
    | Except.error e =>
      if isRecoverableError e && decide (made + 1 ≤ maxRetries) then
        execLoop env (some e) (made + 1) budget
      else LoopExit.failed (made + 1) e

/-- Observable outcome of executeCommand: a thrown validation error, a
resolved attempt result, or the structured error response. -/
inductive ExecOutcome
  | thrown (message : String)
  | success (r : AttemptSuccess)
  | errorResponse (r : ErrorResponse)
deriving DecidableEq, Repr

/-- `executeCommand(command, sessionId, timeout)` (lines 218-259): validate
the command, run the bounded retry loop, and either return the resolved
result or the structured error response built from the last error, with the
loop counter minus one as the attempts field. -/
def executeCommand (env : AttemptEnv) (command : JSVal) (sessionId : String) :
    ExecOutcome :=
  if !isValidCommand command then ExecOutcome.thrown "Command must be a non-empty string"
  else
    match execLoop env none 0 (maxRetries + 1) with
    | LoopExit.succeeded r => ExecOutcome.success r
    | LoopExit.failed made lastError =>
      ExecOutcome.errorResponse (createErrorResponse sessionId lastError (made - 1))

/-- Projection used to state properties of error-response outcomes without
binders. -/
def errorResponseOf : ExecOutcome → Option ErrorResponse
  | ExecOutcome.errorResponse r => some r
  | _ => none

/-- The session-killed error the waiting loop raises at 100 ms for session
"work" under a zero-second budget; used in concrete scenarios. -/
def killErr : JSError := jsErrorOfWait (WaitResult.sessionKilled 100) 0 "work"

/-- An attempt environment in which every attempt rejects with `killErr`. -/
def envKill : AttemptEnv := AttemptEnv.mk (fun _ => Except.error killErr)

/-- First-match lookup in an association list, modelling `Map.get`. -/
def alget {α : Type} : List (String × α) → String → Option α
  | [], _ => none
  | (k, v) :: rest, key => if k = key then some v else alget rest key

/-- `Map.set`: replace the first entry carrying the key in place, or append
a new entry at the end. -/
def alset {α : Type} : List (String × α) → String → α → List (String × α)
  | [], key, v => [(key, v)]
  | (k, w) :: rest, key, v =>
    if k = key then (k, v) :: rest else (k, w) :: alset rest key v

/-- `Map.delete`: remove the first entry carrying the key. -/
def aldel {α : Type} : List (String × α) → String → List (String × α)
  | [], _ => []
  | (k, w) :: rest, key => if k = key then rest else (k, w) :: aldel rest key

/-- The external tmux server state the adapter drives, reduced to what the
embedded operations observe: each live session with its window names. Only
the happy path of the adapter subprocess is modelled; a list-windows call
fails exactly when the session is absent. -/
structure Backend where
  sessions : List (String × List String)
deriving DecidableEq, Repr

/-- `tmux has-session -t sid` succeeding. -/
def Backend.hasSession (b : Backend) (sid : String) : Bool :=
  (alget b.sessions sid).isSome

/-- `tmux list-windows -t sid`: the window names, or none when the call
fails because the session does not exist. -/
def Backend.listWindows (b : Backend) (sid : String) : Option (List String) :=
  alget b.sessions sid

/-- `tmux new-session -d -s sid -n exec`. -/
def Backend.newSession (b : Backend) (sid : String) : Backend :=
  Backend.mk (alset b.sessions sid ["exec"])

/-- `tmux new-window -t sid -n name`. -/
def Backend.newWindow (b : Backend) (sid name : String) : Backend :=
  match alget b.sessions sid with
  | some ws => Backend.mk (alset b.sessions sid (ws ++ [name]))
  | none => b

/-- `tmux kill-session -t sid`. -/
def Backend.killSession (b : Backend) (sid : String) : Backend :=
  Backend.mk (aldel b.sessions sid)

/-- A sessionMetadata record as created by createSession
(src/tmux-manager.js lines 499-507). -/
structure SessionMeta where
  purpose : String
  createdAt : Nat
  lastAccessed : Nat
  commandCount : Nat
  healthStatus : String
  workingDirectory : String
  uiLogFile : String
deriving DecidableEq, Repr

/-- A partial update object passed to `_updateSessionMetadata`. -/
structure MetaUpdates where
  purpose : Option String := none
  createdAt : Option Nat := none
  lastAccessed : Option Nat := none
  commandCount : Option Nat := none
  healthStatus : Option String := none
  workingDirectory : Option String := none
  uiLogFile : Option String := none
deriving DecidableEq, Repr

/-- JavaScript object spread `{ ...current, ...updates }`. -/
def applyUpdates (m : SessionMeta) (u : MetaUpdates) : SessionMeta :=
  { purpose := u.purpose.getD m.purpose
    createdAt := u.createdAt.getD m.createdAt
    lastAccessed := u.lastAccessed.getD m.lastAccessed
    commandCount := u.commandCount.getD m.commandCount
    healthStatus := u.healthStatus.getD m.healthStatus
    workingDirectory := u.workingDirectory.getD m.workingDirectory
    uiLogFile := u.uiLogFile.getD m.uiLogFile }

/-- The three registry maps of TmuxManager together with the backend they
cache. -/
structure ManagerState where
  backend : Backend
  sessions : List (String × Bool)
  sessionMetadata : List (String × SessionMeta)
  lastHealthCheck : List (String × Nat)
deriving DecidableEq, Repr

/-- `_updateSessionMetadata` (src/tmux-manager.js lines 639-645): merge the
updates into an existing record, never creating one. -/
def updateSessionMetadata (st : ManagerState) (sid : String) (u : MetaUpdates) :
    ManagerState :=
  match alget st.sessionMetadata sid with
  | none => st
  | some m =>
    { st with sessionMetadata := alset st.sessionMetadata sid (applyUpdates m u) }

/-- The update object `{ lastAccessed: Date.now() }`. -/
def touchUpdate (now : Nat) : MetaUpdates := { lastAccessed := some now }

/-- The window check of sessionExists: `windows.has('ui') &&
windows.has('exec')`. -/
def requiredWindows (ws : List String) : Bool :=
  ws.contains "ui" && ws.contains "exec"

/-- The record written by recordCommandExecution over an existing record. -/
def bumpMeta (m : SessionMeta) (workingDir : String) (now : Nat) : SessionMeta :=
  { m with
    lastAccessed := now
    commandCount := m.commandCount + 1
    workingDirectory := workingDir }

/-- `sessionExists` (lines 525-549): probe list-windows; with both required
windows present refresh lastAccessed and return true; with a required
window missing return false leaving the state untouched; when the adapter
call fails, return false after deleting the three registry entries, guarded
on the sessions map holding the id. `now` is the clock value of the
embedded `Date.now()` call. -/
def sessionExists (st : ManagerState) (sid : String) (now : Nat) :
    Bool × ManagerState :=
  if sid = "" then (false, st)
  else
    match Backend.listWindows st.backend sid with
    | some ws =>
      if requiredWindows ws then
        (true, updateSessionMetadata st sid (touchUpdate now))
      else (false, st)
    | none =>
      (false,
        if (alget st.sessions sid).isSome then
          { st with
            sessions := aldel st.sessions sid
            sessionMetadata := aldel st.sessionMetadata sid
            lastHealthCheck := aldel st.lastHealthCheck sid }
        else st)

/-- `destroySession` (lines 564-589): throws on an invalid id, returns
false when the backend lacks the session, and otherwise kills it and drops
the three registry entries. The uiLogFile unlink is a filesystem effect
outside this model. -/
def destroySession (st : ManagerState) (sid : String) :
    Except String (Bool × ManagerState) :=
  if sid = "" then Except.error "Session ID must be a non-empty string"
  else if !Backend.hasSession st.backend sid then Except.ok (false, st)
  else Except.ok (true,
    { backend := Backend.killSession st.backend sid
      sessions := aldel st.sessions sid
      sessionMetadata := aldel st.sessionMetadata sid
      lastHealthCheck := aldel st.lastHealthCheck sid })

/-- Abstraction of `process.cwd()`. -/
def processCwd : String := "/workspace"

/-- The per-session UI log file path. -/
def uiLogFileOf (sid : String) : String := "/tmp/tmux-mcp-ui-" ++ sid ++ ".log"

/-- The fresh metadata record written by a successful creation. -/
def freshMeta (purpose : String) (now : Nat) (sid : String) : SessionMeta :=
  { purpose := purpose
    createdAt := now
    lastAccessed := now
    commandCount := 0
    healthStatus := "healthy"
    workingDirectory := processCwd
    uiLogFile := uiLogFileOf sid }

/-- The creation steps of createSession (lines 471-511) on the happy path:
exec window, ui window, ui log file, registry records. -/
def freshCreate (st : ManagerState) (sid purpose : String) (now : Nat) :
    ManagerState :=
  { backend := Backend.newWindow (Backend.newSession st.backend sid) sid "ui"
    sessions := alset st.sessions sid true
    sessionMetadata := alset st.sessionMetadata sid (freshMeta purpose now sid)
    lastHealthCheck := alset st.lastHealthCheck sid now }

/-- `createSession(sessionId, purpose)` (lines 450-523) for an explicit
session id, with the adapter on the happy path (the random id generated for
a null argument and the subprocess failure branch are outside this model,
where every adapter call either succeeds or fails by session absence).
`now` is the clock value for the embedded `Date.now()` calls. -/
def createSession (st : ManagerState) (sid purpose : String) (now : Nat) :
    Except String (String × ManagerState) :=
  let already := Backend.hasSession st.backend sid
  let probe := sessionExists st sid now
  if already && !probe.1 then
    match destroySession probe.2 sid with
    | Except.error m => Except.error m
    | Except.ok (_, st2) => Except.ok (sid, freshCreate st2 sid purpose now)
  else if already && probe.1 then
    Except.ok (sid, updateSessionMetadata probe.2 sid (touchUpdate now))
  else Except.ok (sid, freshCreate probe.2 sid purpose now)

/-- `this.maxIdleTime`: thirty minutes in milliseconds. -/
def maxIdleTime : Nat := 30 * 60 * 1000

/-- The health snapshot fields the cleanup sweep branches on; the purely
informational display fields (ids, rounded minutes, counts, timestamps) are
omitted. -/
structure HealthSnapshot where
  exists_ : Bool
  healthy : Bool
  needs_cleanup : Bool
deriving DecidableEq, Repr

/-- `getSessionHealth` (lines 591-615). `tProbe` is the `Date.now()` value
stamped by the embedded sessionExists call and `tNow` the value read for
the idle computation; in a real run they lie milliseconds apart. -/
def getSessionHealth (st : ManagerState) (sid : String) (tProbe tNow : Nat) :
    HealthSnapshot × ManagerState :=
  let probe := sessionExists st sid tProbe
  if !probe.1 then (HealthSnapshot.mk false false false, probe.2)
  else
    let md := alget probe.2.sessionMetadata sid
    let idleTime : Int :=
      (tNow : Int) -
        (match md with | some m => (m.lastAccessed : Int) | none => (tNow : Int))
    (HealthSnapshot.mk true
      (match md with | some m => decide (m.healthStatus = "healthy") | none => false)
      (decide (idleTime > (maxIdleTime : Int))), probe.2)

/-- One pass of `performLifecycleCleanup` (lines 617-637) over the listed
session names, with a single clock value for the whole sweep (a sweep takes
milliseconds; the idle threshold is thirty minutes). A destroy error is
caught: the sweep records nothing for that session and continues. -/
def sweepLoop (now : Nat) : List String → ManagerState → List String →
    List String × ManagerState
  | [], st, cleaned => (cleaned.reverse, st)
  | sid :: rest, st, cleaned =>
    let p := getSessionHealth st sid now now
    if !p.1.exists_ then sweepLoop now rest p.2 cleaned
    else if p.1.needs_cleanup || !p.1.healthy then
      match destroySession p.2 sid with
      | Except.ok (_, st2) => sweepLoop now rest st2 (sid :: cleaned)
      | Except.error _ => sweepLoop now rest p.2 cleaned
    else sweepLoop now rest p.2 cleaned

/-- `performLifecycleCleanup`: sweep every session the backend lists. -/
def performLifecycleCleanup (st : ManagerState) (now : Nat) :
    List String × ManagerState :=
  sweepLoop now (st.backend.sessions.map Prod.fst) st []

/-- `recordCommandExecution` (lines 657-666). -/
def recordCommandExecution (st : ManagerState) (sid workingDir : String)
    (now : Nat) : ManagerState :=
  match alget st.sessionMetadata sid with
  | none => st
  | some m =>
    updateSessionMetadata st sid
      { lastAccessed := some now
        commandCount := some (m.commandCount + 1)
        workingDirectory := some workingDir }

/-- A manager state holding one registered, correctly configured session
whose lastAccessed is stale by 31 minutes at sweep time. -/
def idleState : ManagerState :=
  { backend := Backend.mk [("idle-sess", ["exec", "ui"])]
    sessions := [("idle-sess", true)]
    sessionMetadata := [("idle-sess", freshMeta "general" 0 "idle-sess")]
    lastHealthCheck := [("idle-sess", 0)] }

/-- A state whose backend session "s" lost its ui window while the registry
still holds all three entries for it. -/
def misconfiguredState : ManagerState :=
  { backend := Backend.mk [("s", ["exec"])]
    sessions := [("s", true)]
    sessionMetadata := [("s", freshMeta "general" 3 "s")]
    lastHealthCheck := [("s", 3)] }

/-- A state whose registry still holds entries for a session the backend no
longer has. -/
def staleState : ManagerState :=
  { backend := Backend.mk []
    sessions := [("x", true)]
    sessionMetadata := [("x", freshMeta "general" 0 "x")]
    lastHealthCheck := [("x", 0)] }

end PersistentShellMCP

namespace PersistentShellMCP

lemma readOutputScan_spec (ls : List String) (ec : JSNum) (acc : List String) :
    readOutputScan ls ec acc =
      ((match (ls.filter (fun l => jsStartsWith l "EXIT_CODE:")).getLast? with
        | some m => jsParseIntNum ((jsSplit m ':').getD 1 "")
        | none => ec),
       acc.reverse ++ ls.filter (fun l => !jsStartsWith l "EXIT_CODE:")) := by
  induction ls generalizing ec acc with
  | nil => simp [readOutputScan]
  | cons l rest ih =>
    cases hl : jsStartsWith l "EXIT_CODE:" with
    | true =>
      rw [show readOutputScan (l :: rest) ec acc =
          readOutputScan rest (jsParseIntNum ((jsSplit l ':').getD 1 "")) acc from by
        simp [readOutputScan, hl]]
      rw [ih]
      simp only [List.filter_cons, hl, Bool.not_true, if_true, Bool.false_eq_true,
        if_false]
      cases hfr : rest.filter (fun l => jsStartsWith l "EXIT_CODE:") with
      | nil => simp [hfr]
      | cons y ys =>
        simp only [hfr, List.getLast?_cons_cons]
        cases hy : (y :: ys).getLast? with
        | none =>
          rw [List.getLast?_eq_none_iff] at hy
          cases hy
        | some z => rfl
    | false =>
      rw [show readOutputScan (l :: rest) ec acc = readOutputScan rest ec (l :: acc)
          from by simp [readOutputScan, hl]]
      rw [ih]
      simp [List.filter_cons, hl, List.reverse_cons, List.append_assoc]

/-- C1: full characterization of `_readOutput` on any readable capture
content: stdout is the content split at newlines with every line starting
with `EXIT_CODE:` removed (so a legitimate output line carrying the marker
prefix is dropped too), joined back and stripped of one trailing newline;
the exit code is what parseInt extracts from the last `EXIT_CODE:`-prefixed
line, which for a wrapped command is the trailing injected marker, and
defaults to 0 (not -1 as the original claim stated) when no such line
exists. -/
theorem readOutput_strips_all_markers (content : String) :
    readOutput (some content) =
      { stdout := stripTrailingNewline (jsJoin
          ((jsSplit content '\n').filter (fun l => !jsStartsWith l "EXIT_CODE:")))
        stderr := ""
        exit_code :=
          match ((jsSplit content '\n').filter
              (fun l => jsStartsWith l "EXIT_CODE:")).getLast? with
          | some m => jsParseIntNum ((jsSplit m ':').getD 1 "")
          | none => JSNum.int 0 } := by
  simp [readOutput, readOutputScan_spec]

/-- C1 counterexample: two capture files refuting the original claim. On
"hi\n", which holds no exit-status marker line, `_readOutput` returns exit
code 0, not the sentinel -1 the claim states. On
"EXIT_CODE:5 banana\nEXIT_CODE:7\n", whose first line is legitimate command
output, the returned stdout is empty - the legitimate line is dropped, not
just the injected trailing marker - while the exit code 7 comes from the
last prefixed line. -/
theorem readOutput_original_claim_counterexample :
    readOutput (some "hi\n") =
      { stdout := "hi", stderr := "", exit_code := JSNum.int 0 } ∧
    JSNum.int 0 ≠ JSNum.int (-1) ∧
    readOutput (some "EXIT_CODE:5 banana\nEXIT_CODE:7\n") =
      { stdout := "", stderr := "", exit_code := JSNum.int 7 } ∧
    ("" : String) ≠ "EXIT_CODE:5 banana" := by
  refine ⟨by decide, by decide, by decide, by decide⟩

lemma waitLoop_no_marker (env : WaitEnv) (timeoutMs : Nat)
    (hasOutputFile checkSession : Bool)
    (hm : ∀ t, env.markerExists t = false) :
    ∀ fuel elapsed, timeoutMs + 1 - elapsed ≤ fuel →
      elapsed ≤ timeoutMs + pollIntervalMs →
      ∃ e, elapsed ≤ e ∧ e ≤ timeoutMs + pollIntervalMs ∧ timeoutMs < e ∧
        waitLoop env timeoutMs hasOutputFile checkSession elapsed =
          (if checkSession && !env.sessionAlive e then WaitResult.sessionKilled e
            else WaitResult.timedOut
              (if hasOutputFile then (env.readCapture e).getD "" else "") e) := by
  have hp : pollIntervalMs = 100 := rfl
  intro fuel
  induction fuel with
  | zero =>
    intro elapsed h1 h2
    have hgt : timeoutMs < elapsed := by omega
    refine ⟨elapsed, le_refl _, h2, hgt, ?_⟩
    rw [waitLoop]
    simp [hm elapsed, hgt]
  | succ n ih =>
    intro elapsed h1 h2
    by_cases hgt : timeoutMs < elapsed
    · refine ⟨elapsed, le_refl _, h2, hgt, ?_⟩
      rw [waitLoop]
      simp [hm elapsed, hgt]
    · obtain ⟨e, he1, he2, he3, he4⟩ :=
        ih (elapsed + pollIntervalMs) (by omega) (by omega)
    --
      refine ⟨e, by omega, he2, he3, ?_⟩
      rw [waitLoop]
      simp only [hm elapsed, Bool.false_eq_true, if_false]
      rw [if_neg (by omega)]
      exact he4

/-- C3: when the overall timeout expires during the sentinel poll loop
(modelled by a marker that never appears), run with a session id and an
output file supplied as `_executeCommandAttempt` does, the loop ends at a
single instant e within one poll interval past the deadline, raising
exactly one of two errors there: session-killed when the session no longer
exists at e, and otherwise timeout carrying the readable capture content at
e (a failed read is swallowed into the empty string). The session-killed
error object is marked recoverable = false and the timeout error object
recoverable = true. -/
theorem waitForCompletion_expiry_dichotomy (env : WaitEnv) (tSecs : Nat)
    (hm : ∀ t, env.markerExists t = false) :
    ∃ e, tSecs * 1000 < e ∧ e ≤ tSecs * 1000 + pollIntervalMs ∧
      ((env.sessionAlive e = false ∧
          waitForCompletion env tSecs true true = WaitResult.sessionKilled e) ∨
        (env.sessionAlive e = true ∧
          waitForCompletion env tSecs true true =
            WaitResult.timedOut ((env.readCapture e).getD "") e)) ∧
      (∀ sid, (jsErrorOfWait (WaitResult.sessionKilled e) tSecs sid).recoverable =
        some false) ∧
      (∀ s sid, (jsErrorOfWait (WaitResult.timedOut s e) tSecs sid).recoverable =
        some true) := by
  obtain ⟨e, he1, he2, he3, he4⟩ :=
    waitLoop_no_marker env (tSecs * 1000) true true hm (tSecs * 1000 + 1) 0
      (by omega) (by omega)
  refine ⟨e, he3, he2, ?_, fun sid => rfl, fun s sid => rfl⟩
  cases halive : env.sessionAlive e with
  | false =>
    left
    refine ⟨rfl, ?_⟩
    rw [waitForCompletion, he4, halive]
    simp
  | true =>
    right
    refine ⟨rfl, ?_⟩
    rw [waitForCompletion, he4, halive]
    simp

/-- Witness for C3: a zero-second timeout against an environment whose
marker never appears and whose session is gone. -/
theorem waitForCompletion_expiry_dichotomy_witness :
    ∃ e, 0 * 1000 < e ∧ e ≤ 0 * 1000 + pollIntervalMs ∧
      (((WaitEnv.mk (fun _ => false) (fun _ => false) (fun _ => none)).sessionAlive e =
            false ∧
          waitForCompletion
              (WaitEnv.mk (fun _ => false) (fun _ => false) (fun _ => none)) 0 true true =
            WaitResult.sessionKilled e) ∨
        ((WaitEnv.mk (fun _ => false) (fun _ => false) (fun _ => none)).sessionAlive e =
            true ∧
          waitForCompletion
              (WaitEnv.mk (fun _ => false) (fun _ => false) (fun _ => none)) 0 true true =
            WaitResult.timedOut
              (((WaitEnv.mk (fun _ => false) (fun _ => false)
                  (fun _ => none)).readCapture e).getD "") e)) ∧
      (∀ sid, (jsErrorOfWait (WaitResult.sessionKilled e) 0 sid).recoverable =
        some false) ∧
      (∀ s sid, (jsErrorOfWait (WaitResult.timedOut s e) 0 sid).recoverable =
        some true) :=
  waitForCompletion_expiry_dichotomy
    (WaitEnv.mk (fun _ => false) (fun _ => false) (fun _ => none)) 0 (fun _ => rfl)

/-- C8: for a command whose marker never appears within the budget while
the session stays alive, the poll loop terminates and returns a timeout
result at an elapsed time of at most the configured timeout plus one poll
interval, carrying whatever capture content is readable at that instant. -/
theorem waitForCompletion_terminates_within_bound (env : WaitEnv) (tSecs : Nat)
    (hm : ∀ t, env.markerExists t = false)
    (ha : ∀ t, env.sessionAlive t = true) :
    ∃ e, e ≤ tSecs * 1000 + pollIntervalMs ∧
      waitForCompletion env tSecs true true =
        WaitResult.timedOut ((env.readCapture e).getD "") e := by
  obtain ⟨e, he1, he2, he3, he4⟩ :=
    waitLoop_no_marker env (tSecs * 1000) true true hm (tSecs * 1000 + 1) 0
      (by omega) (by omega)
  refine ⟨e, he2, ?_⟩
  rw [waitForCompletion, he4, ha e]
  simp

/-- Witness for C8: a one-second timeout against an environment whose
marker never appears and whose session stays alive. -/
theorem waitForCompletion_terminates_within_bound_witness :
    ∃ e, e ≤ 1 * 1000 + pollIntervalMs ∧
      waitForCompletion
          (WaitEnv.mk (fun _ => false) (fun _ => true) (fun _ => some "partial out"))
          1 true true =
        WaitResult.timedOut
          (((WaitEnv.mk (fun _ => false) (fun _ => true)
              (fun _ => some "partial out")).readCapture e).getD "") e :=
  waitForCompletion_terminates_within_bound
    (WaitEnv.mk (fun _ => false) (fun _ => true) (fun _ => some "partial out")) 1
    (fun _ => rfl) (fun _ => rfl)

/-- C2: a run of executeCommand that ends with the retry loop failing on an
error raised by the waiting loop returns the structured error response with
exit code -1; its stdout is the salvaged partial capture content when the
final error was a timeout, and the empty string when it was session-killed:
no salvage read is attempted on the session-killed path, contrary to the
original claim. -/
theorem executeCommand_error_salvage (env : AttemptEnv) (cmd : JSVal) (sid : String)
    (hv : isValidCommand cmd = true) (made : Nat) (w : WaitResult) (ts : Nat)
    (sid2 : String)
    (hloop : execLoop env none 0 (maxRetries + 1) =
      LoopExit.failed made (jsErrorOfWait w ts sid2)) :
    executeCommand env cmd sid =
      ExecOutcome.errorResponse
        (createErrorResponse sid (jsErrorOfWait w ts sid2) (made - 1)) ∧
    (createErrorResponse sid (jsErrorOfWait w ts sid2) (made - 1)).exit_code =
      JSNum.int (-1) ∧
    (createErrorResponse sid (jsErrorOfWait w ts sid2) (made - 1)).stdout =
      (match w with
        | WaitResult.timedOut p _ => p
        | _ => "") := by
  refine ⟨?_, rfl, ?_⟩
  · simp [executeCommand, hv, hloop]
  · cases w <;> rfl

/-- Witness for C2: every attempt dies with the session-killed error. -/
theorem executeCommand_error_salvage_witness :
    executeCommand envKill (JSVal.str "sleep 5") "work" =
      ExecOutcome.errorResponse
        (createErrorResponse "work"
          (jsErrorOfWait (WaitResult.sessionKilled 100) 0 "work") (1 - 1)) ∧
    (createErrorResponse "work"
        (jsErrorOfWait (WaitResult.sessionKilled 100) 0 "work") (1 - 1)).exit_code =
      JSNum.int (-1) ∧
    (createErrorResponse "work"
        (jsErrorOfWait (WaitResult.sessionKilled 100) 0 "work") (1 - 1)).stdout =
      (match WaitResult.sessionKilled 100 with
        | WaitResult.timedOut p _ => p
        | _ => "") :=
  executeCommand_error_salvage envKill (JSVal.str "sleep 5") "work" (by decide) 1
    (WaitResult.sessionKilled 100) 0 "work" (by decide)

/-- C2 counterexample: an execution killed mid-run while the capture file is
readable with content "PARTIAL". The waiting loop raises session-killed
without reading the capture file, and the final structured result carries
empty stdout rather than the readable partial content, refuting the claim
for the sessionKilled case. -/
theorem executeCommand_killed_salvage_counterexample :
    (WaitEnv.mk (fun _ => false) (fun _ => false) (fun _ => some "PARTIAL")).readCapture
        100 = some "PARTIAL" ∧
    waitForCompletion
        (WaitEnv.mk (fun _ => false) (fun _ => false) (fun _ => some "PARTIAL")) 0
        true true = WaitResult.sessionKilled 100 ∧
    Option.map ErrorResponse.stdout
        (errorResponseOf (executeCommand envKill (JSVal.str "sleep 5") "work")) =
      some "" ∧
    ¬ Option.map ErrorResponse.stdout
        (errorResponseOf (executeCommand envKill (JSVal.str "sleep 5") "work")) =
      some "PARTIAL" ∧
    Option.map ErrorResponse.exit_code
        (errorResponseOf (executeCommand envKill (JSVal.str "sleep 5") "work")) =
      some (JSNum.int (-1)) := by
  refine ⟨rfl, ?_, by decide, by decide, by decide⟩
  rw [waitForCompletion, waitLoop, waitLoop]
  simp [pollIntervalMs]

/-- C4: the retry loop retries only on errors classified recoverable and
only while the budget of maxRetries = 2 extra attempts is not exhausted; a
non-recoverable error breaks the loop immediately after its attempt; with a
valid command executeCommand never throws; and when the loop fails it
returns the structured error response whose fields carry stdout, stderr
with recovery guidance, exit code -1, the recoverable classification of the
last error, and an attempts field equal to the loop counter minus one, that
is one less than the number of attempts actually made (the original claim
said it equals the number of attempts made). -/
theorem executeCommand_retry_policy (env : AttemptEnv) (cmd : JSVal) (sid : String)
    (hv : isValidCommand cmd = true) :
    (∀ m, executeCommand env cmd sid ≠ ExecOutcome.thrown m) ∧
    (∀ e, env.attempt 1 = Except.error e → isRecoverableError e = false →
      executeCommand env cmd sid =
        ExecOutcome.errorResponse (createErrorResponse sid e 0)) ∧
    (∀ e1 e2 e3, env.attempt 1 = Except.error e1 → isRecoverableError e1 = true →
      env.attempt 2 = Except.error e2 → isRecoverableError e2 = true →
      env.attempt 3 = Except.error e3 →
      executeCommand env cmd sid =
        ExecOutcome.errorResponse (createErrorResponse sid e3 2)) ∧
    (∀ e1 r, env.attempt 1 = Except.error e1 → isRecoverableError e1 = true →
      env.attempt 2 = Except.ok r →
      executeCommand env cmd sid = ExecOutcome.success r) ∧
    (∀ e a, (createErrorResponse sid e a).exit_code = JSNum.int (-1) ∧
      (createErrorResponse sid e a).attempts = a ∧
      (createErrorResponse sid e a).recoverable = isRecoverableError e ∧
      (createErrorResponse sid e a).stdout = e.partialOutput.getD "") := by
  refine ⟨?_, ?_, ?_, ?_, fun e a => ⟨rfl, rfl, rfl, rfl⟩⟩
  · intro m
    simp only [executeCommand, hv, Bool.not_true, Bool.false_eq_true, if_false]
    cases h : execLoop env none 0 (maxRetries + 1) <;> simp
  · intro e h1 h2
    simp [executeCommand, hv, execLoop, maxRetries, h1, h2]
  · intro e1 e2 e3 h1 hr1 h2 hr2 h3
    simp [executeCommand, hv, execLoop, maxRetries, h1, hr1, h2, hr2, h3]
  · intro e1 r h1 hr1 h2
    simp [executeCommand, hv, execLoop, maxRetries, h1, hr1, h2]

/-- Witness for C4: the all-attempts-fail environment with a
non-recoverable error. -/
theorem executeCommand_retry_policy_witness :
    (∀ m, executeCommand envKill (JSVal.str "pwd") "work" ≠ ExecOutcome.thrown m) ∧
    (∀ e, envKill.attempt 1 = Except.error e → isRecoverableError e = false →
      executeCommand envKill (JSVal.str "pwd") "work" =
        ExecOutcome.errorResponse (createErrorResponse "work" e 0)) ∧
    (∀ e1 e2 e3, envKill.attempt 1 = Except.error e1 → isRecoverableError e1 = true →
      envKill.attempt 2 = Except.error e2 → isRecoverableError e2 = true →
      envKill.attempt 3 = Except.error e3 →
      executeCommand envKill (JSVal.str "pwd") "work" =
        ExecOutcome.errorResponse (createErrorResponse "work" e3 2)) ∧
    (∀ e1 r, envKill.attempt 1 = Except.error e1 → isRecoverableError e1 = true →
      envKill.attempt 2 = Except.ok r →
      executeCommand envKill (JSVal.str "pwd") "work" = ExecOutcome.success r) ∧
    (∀ e a, (createErrorResponse "work" e a).exit_code = JSNum.int (-1) ∧
      (createErrorResponse "work" e a).attempts = a ∧
      (createErrorResponse "work" e a).recoverable = isRecoverableError e ∧
      (createErrorResponse "work" e a).stdout = e.partialOutput.getD "") :=
  executeCommand_retry_policy envKill (JSVal.str "pwd") "work" (by decide)

/-- C4 counterexample: a first attempt that fails non-recoverably makes the
loop stop after exactly one attempt (the loop exit records counter 1), yet
the attempts field of the returned response is 0, not the number of
attempts made. -/
theorem executeCommand_attempts_field_counterexample :
    execLoop envKill none 0 (maxRetries + 1) = LoopExit.failed 1 killErr ∧
    Option.map ErrorResponse.attempts
        (errorResponseOf (executeCommand envKill (JSVal.str "pwd") "work")) = some 0 ∧
    (0 : Nat) ≠ 1 := by
  refine ⟨by decide, by decide, by decide⟩

/-- C9: a command argument that is not a non-empty string makes
executeCommand raise the validation error before anything else happens: the
outcome is the thrown error, identical for every attempt environment and
session id (so no attempt, session creation, registry mutation or
filesystem artifact is reached, all of which live behind the attempt
environment), and it is not the structured error-result shape. -/
theorem executeCommand_invalid_command_throws (env env2 : AttemptEnv) (cmd : JSVal)
    (sid sid2 : String) (hv : isValidCommand cmd = false) :
    executeCommand env cmd sid =
      ExecOutcome.thrown "Command must be a non-empty string" ∧
    executeCommand env cmd sid = executeCommand env2 cmd sid2 ∧
    (∀ r, executeCommand env cmd sid ≠ ExecOutcome.errorResponse r) ∧
    (∀ r, executeCommand env cmd sid ≠ ExecOutcome.success r) := by
  have h1 : executeCommand env cmd sid =
      ExecOutcome.thrown "Command must be a non-empty string" := by
    simp [executeCommand, hv]
  have h2 : executeCommand env2 cmd sid2 =
      ExecOutcome.thrown "Command must be a non-empty string" := by
    simp [executeCommand, hv]
  refine ⟨h1, by rw [h1, h2], fun r h => ?_, fun r h => ?_⟩
  · rw [h1] at h
    exact absurd h (by simp)
  · rw [h1] at h
    exact absurd h (by simp)

/-- Witness for C9: the null command. -/
theorem executeCommand_invalid_command_throws_witness :
    executeCommand envKill JSVal.nullv "a" =
      ExecOutcome.thrown "Command must be a non-empty string" ∧
    executeCommand envKill JSVal.nullv "a" = executeCommand envKill JSVal.nullv "b" ∧
    (∀ r, executeCommand envKill JSVal.nullv "a" ≠ ExecOutcome.errorResponse r) ∧
    (∀ r, executeCommand envKill JSVal.nullv "a" ≠ ExecOutcome.success r) :=
  executeCommand_invalid_command_throws envKill envKill JSVal.nullv "a" "b" (by decide)

lemma alget_alset_self {α : Type} (m : List (String × α)) (k : String) (v : α) :
    alget (alset m k v) k = some v := by
  induction m with
  | nil => simp [alset, alget]
  | cons p rest ih =>
    obtain ⟨q, w⟩ := p
    by_cases h : q = k
    · simp [alset, h, alget]
    · simp [alset, h, alget, ih]

lemma alset_alset_self {α : Type} (m : List (String × α)) (k : String) (v w : α) :
    alset (alset m k v) k w = alset m k w := by
  induction m with
  | nil => simp [alset]
  | cons p rest ih =>
    obtain ⟨q, x⟩ := p
    by_cases h : q = k
    · simp [alset, h]
    · simp [alset, h, ih]

lemma alget_none_of_not_mem {α : Type} (m : List (String × α)) (k : String)
    (h : k ∉ m.map Prod.fst) : alget m k = none := by
  induction m with
  | nil => rfl
  | cons p rest ih =>
    obtain ⟨q, v⟩ := p
    have h1 : ¬ q = k := by
      intro hh
      exact h (by simp [hh])
    have h2 : k ∉ rest.map Prod.fst := by
      intro hh
      exact h (by simp [hh])
    simp [alget, h1, ih h2]

lemma alget_aldel_self {α : Type} (m : List (String × α)) (k : String)
    (h : (m.map Prod.fst).Nodup) : alget (aldel m k) k = none := by
  induction m with
  | nil => rfl
  | cons p rest ih =>
    obtain ⟨q, v⟩ := p
    simp only [List.map_cons, List.nodup_cons] at h
    by_cases hk : q = k
    · subst hk
      simp only [aldel, if_pos rfl]
      exact alget_none_of_not_mem rest q h.1
    · simp [aldel, hk, alget, ih h.2]

lemma updateSessionMetadata_backend (st : ManagerState) (sid : String)
    (u : MetaUpdates) : (updateSessionMetadata st sid u).backend = st.backend := by
  unfold updateSessionMetadata
  cases alget st.sessionMetadata sid <;> rfl

lemma updateSessionMetadata_sessions (st : ManagerState) (sid : String)
    (u : MetaUpdates) : (updateSessionMetadata st sid u).sessions = st.sessions := by
  unfold updateSessionMetadata
  cases alget st.sessionMetadata sid <;> rfl

lemma updateSessionMetadata_lastHealthCheck (st : ManagerState) (sid : String)
    (u : MetaUpdates) :
    (updateSessionMetadata st sid u).lastHealthCheck = st.lastHealthCheck := by
  unfold updateSessionMetadata
  cases alget st.sessionMetadata sid <;> rfl

lemma option_getD_idem {α : Type} (o : Option α) (x : α) :
    o.getD (o.getD x) = o.getD x := by cases o <;> rfl

lemma applyUpdates_idem (m : SessionMeta) (u : MetaUpdates) :
    applyUpdates (applyUpdates m u) u = applyUpdates m u := by
  simp [applyUpdates, option_getD_idem]

lemma updateSessionMetadata_idem (st : ManagerState) (sid : String)
    (u : MetaUpdates) :
    updateSessionMetadata (updateSessionMetadata st sid u) sid u =
      updateSessionMetadata st sid u := by
  unfold updateSessionMetadata
  cases h : alget st.sessionMetadata sid with
  | none => simp [h]
  | some m =>
    simp only [h, alget_alset_self]
    rw [alset_alset_self, applyUpdates_idem]

/-- C10: the two metadata writers never fabricate a record: for a session
id without a metadata record both `_updateSessionMetadata` and
`recordCommandExecution` leave the whole state untouched, and for one with
a record, `recordCommandExecution` bumps commandCount by exactly one, sets
lastAccessed to the current time and the working directory to the observed
one, leaving purpose, createdAt, healthStatus and uiLogFile of the record
as well as the backend and the other two maps unchanged. -/
theorem recordCommandExecution_spec (st : ManagerState) (sid workingDir : String)
    (now : Nat) (u : MetaUpdates) :
    (alget st.sessionMetadata sid = none →
      updateSessionMetadata st sid u = st ∧
      recordCommandExecution st sid workingDir now = st) ∧
    (∀ m, alget st.sessionMetadata sid = some m →
      recordCommandExecution st sid workingDir now =
        { st with sessionMetadata := alset st.sessionMetadata sid (bumpMeta m workingDir now) } ∧
      alget (recordCommandExecution st sid workingDir now).sessionMetadata sid =
        some (bumpMeta m workingDir now) ∧
      (bumpMeta m workingDir now).purpose = m.purpose ∧
      (bumpMeta m workingDir now).createdAt = m.createdAt ∧
      (bumpMeta m workingDir now).healthStatus = m.healthStatus ∧
      (bumpMeta m workingDir now).uiLogFile = m.uiLogFile ∧
      (bumpMeta m workingDir now).commandCount = m.commandCount + 1 ∧
      (bumpMeta m workingDir now).lastAccessed = now ∧
      (bumpMeta m workingDir now).workingDirectory = workingDir ∧
      (recordCommandExecution st sid workingDir now).backend = st.backend ∧
      (recordCommandExecution st sid workingDir now).sessions = st.sessions ∧
      (recordCommandExecution st sid workingDir now).lastHealthCheck =
        st.lastHealthCheck) := by
  constructor
  · intro h
    constructor
    · simp [updateSessionMetadata, h]
    · simp [recordCommandExecution, h]
  · intro m h
    have hrec : recordCommandExecution st sid workingDir now =
        { st with sessionMetadata := alset st.sessionMetadata sid (bumpMeta m workingDir now) } := by
      simp [recordCommandExecution, h, updateSessionMetadata, applyUpdates, bumpMeta]
    refine ⟨hrec, ?_, rfl, rfl, rfl, rfl, rfl, rfl, rfl, ?_, ?_, ?_⟩
    · rw [hrec]
      simp [alget_alset_self]
    · rw [hrec]
    · rw [hrec]
    · rw [hrec]

lemma sessionExists_backend (st : ManagerState) (sid : String) (now : Nat) :
    (sessionExists st sid now).2.backend = st.backend := by
  unfold sessionExists
  by_cases h : sid = ""
  · simp [h]
  · simp only [h, if_false]
    cases hw : Backend.listWindows st.backend sid with
    | some ws =>
      by_cases hc : requiredWindows ws = true
      · simp [hc, updateSessionMetadata_backend]
      · simp [hc]
    | none =>
      by_cases hs : (alget st.sessions sid).isSome <;> simp [hs]

lemma sessionExists_configured (st : ManagerState) (sid : String) (now : Nat)
    (hsid : ¬ sid = "") (ws : List String)
    (hw : Backend.listWindows st.backend sid = some ws)
    (hc : requiredWindows ws = true) :
    sessionExists st sid now =
      (true, updateSessionMetadata st sid (touchUpdate now)) := by
  unfold sessionExists
  simp [hsid, hw, hc]

lemma sessionExists_eq_true_elim (st : ManagerState) (sid : String) (now : Nat)
    (h : (sessionExists st sid now).1 = true) :
    ∃ ws, Backend.listWindows st.backend sid = some ws ∧
      requiredWindows ws = true ∧
      (sessionExists st sid now).2 = updateSessionMetadata st sid (touchUpdate now) := by
  by_cases hsid : sid = ""
  · rw [sessionExists, if_pos hsid] at h
    simp at h
  · rw [sessionExists, if_neg hsid] at h
    cases hw : Backend.listWindows st.backend sid with
    | some ws =>
      rw [hw] at h
      by_cases hc : requiredWindows ws = true
      · exact ⟨ws, rfl, hc, by rw [sessionExists_configured st sid now hsid ws hw hc]⟩
      · simp [hc] at h
    | none =>
      rw [hw] at h
      by_cases hs : (alget st.sessions sid).isSome <;> simp [hs] at h

/-- C6 (amended): `sessionExists` probes the backend by listing the
session's windows and requiring both the ui and the exec window. When the
listing itself fails (the backend session is gone) it returns false and,
provided the sessions map holds the id, deletes the three registry entries;
a failing probe never leaves a sessions-map entry behind. When the listing
succeeds but a required window is missing it returns false leaving the
whole state, including the registry, untouched (the original claim said
every failing probe purges the registry). A successful probe returns true
after refreshing lastAccessed. -/
theorem sessionExists_selfheal (st : ManagerState) (sid : String) (now : Nat)
    (hsid : ¬ sid = "")
    (hnodupS : (st.sessions.map Prod.fst).Nodup)
    (hnodupM : (st.sessionMetadata.map Prod.fst).Nodup)
    (hnodupH : (st.lastHealthCheck.map Prod.fst).Nodup) :
    (Backend.listWindows st.backend sid = none →
      (sessionExists st sid now).1 = false ∧
      alget (sessionExists st sid now).2.sessions sid = none ∧
      ((alget st.sessions sid).isSome = true →
        alget (sessionExists st sid now).2.sessionMetadata sid = none ∧
        alget (sessionExists st sid now).2.lastHealthCheck sid = none) ∧
      ((alget st.sessions sid).isSome = false → (sessionExists st sid now).2 = st)) ∧
    (∀ ws, Backend.listWindows st.backend sid = some ws →
      requiredWindows ws = false →
      sessionExists st sid now = (false, st)) ∧
    (∀ ws, Backend.listWindows st.backend sid = some ws →
      requiredWindows ws = true →
      sessionExists st sid now =
        (true, updateSessionMetadata st sid (touchUpdate now))) := by
  refine ⟨?_, ?_, ?_⟩
  · intro hw
    by_cases hs : (alget st.sessions sid).isSome = true
    · have hst : (sessionExists st sid now).2 =
          { st with
            sessions := aldel st.sessions sid
            sessionMetadata := aldel st.sessionMetadata sid
            lastHealthCheck := aldel st.lastHealthCheck sid } := by
        rw [sessionExists, if_neg hsid, hw]
        simp [hs]
      refine ⟨by rw [sessionExists, if_neg hsid, hw], ?_, ?_, ?_⟩
      · rw [hst]
        exact alget_aldel_self st.sessions sid hnodupS
      · intro _
        constructor
        · rw [hst]
          exact alget_aldel_self st.sessionMetadata sid hnodupM
        · rw [hst]
          exact alget_aldel_self st.lastHealthCheck sid hnodupH
      · intro hcontra
        rw [hs] at hcontra
        cases hcontra
    · have hs' : (alget st.sessions sid).isSome = false := by
        cases hzz : (alget st.sessions sid).isSome
        · rfl
        · exact absurd hzz hs
      have hnone : alget st.sessions sid = none := by
        cases hz : alget st.sessions sid with
        | none => rfl
        | some v =>
          rw [hz] at hs'
          cases hs'
      have hst : (sessionExists st sid now).2 = st := by
        rw [sessionExists, if_neg hsid, hw]
        simp [hs']
      refine ⟨by rw [sessionExists, if_neg hsid, hw], ?_, ?_, fun _ => hst⟩
      · rw [hst]
        exact hnone
      · intro hcontra
        rw [hs'] at hcontra
        cases hcontra
  · intro ws hw hc
    rw [sessionExists, if_neg hsid, hw]
    simp [hc]
  · intro ws hw hc
    exact sessionExists_configured st sid now hsid ws hw hc

/-- Witness for C6: a registry holding entries for session "x" that the
backend no longer has; the probe fails, returns false, and purges all three
entries. -/
theorem sessionExists_selfheal_witness :
    (Backend.listWindows staleState.backend "x" = none →
      (sessionExists staleState "x" 7).1 = false ∧
      alget (sessionExists staleState "x" 7).2.sessions "x" = none ∧
      ((alget staleState.sessions "x").isSome = true →
        alget (sessionExists staleState "x" 7).2.sessionMetadata "x" = none ∧
        alget (sessionExists staleState "x" 7).2.lastHealthCheck "x" = none) ∧
      ((alget staleState.sessions "x").isSome = false →
        (sessionExists staleState "x" 7).2 = staleState)) ∧
    (∀ ws, Backend.listWindows staleState.backend "x" = some ws →
      requiredWindows ws = false →
      sessionExists staleState "x" 7 = (false, staleState)) ∧
    (∀ ws, Backend.listWindows staleState.backend "x" = some ws →
      requiredWindows ws = true →
      sessionExists staleState "x" 7 =
        (true, updateSessionMetadata staleState "x" (touchUpdate 7))) :=
  sessionExists_selfheal staleState "x" 7 (by decide) (by decide) (by decide) (by decide)

/-- C6 counterexample: session "s" exists on the backend but lost its ui
window, so the probe fails, yet the registry entries for "s" survive
untouched, refuting the claim that every failing probe deletes the stale
registry entries. -/
theorem sessionExists_no_purge_counterexample :
    (sessionExists misconfiguredState "s" 5).1 = false ∧
    (sessionExists misconfiguredState "s" 5).2 = misconfiguredState ∧
    alget (sessionExists misconfiguredState "s" 5).2.sessionMetadata "s" =
      some (freshMeta "general" 3 "s") ∧
    alget (sessionExists misconfiguredState "s" 5).2.sessions "s" = some true := by
  refine ⟨by decide, by decide, by decide, by decide⟩

lemma freshCreate_windows (st : ManagerState) (sid purpose : String) (now : Nat) :
    Backend.listWindows (freshCreate st sid purpose now).backend sid =
      some ["exec", "ui"] := by
  simp [freshCreate, Backend.newSession, Backend.newWindow, Backend.listWindows,
    alget_alset_self, alset_alset_self]

lemma requiredWindows_exec_ui : requiredWindows ["exec", "ui"] = true := by decide

lemma hasSession_of_listWindows (b : Backend) (sid : String) (ws : List String)
    (hw : Backend.listWindows b sid = some ws) : Backend.hasSession b sid = true := by
  unfold Backend.hasSession
  unfold Backend.listWindows at hw
  rw [hw]
  rfl

lemma createSession_on_configured (st : ManagerState) (sid purpose : String)
    (now : Nat) (hsid : ¬ sid = "") (ws : List String)
    (hw : Backend.listWindows st.backend sid = some ws)
    (hc : requiredWindows ws = true) :
    createSession st sid purpose now =
      Except.ok (sid, updateSessionMetadata
        (updateSessionMetadata st sid (touchUpdate now)) sid (touchUpdate now)) := by
  have halready := hasSession_of_listWindows st.backend sid ws hw
  have hprobe := sessionExists_configured st sid now hsid ws hw hc
  simp [createSession, halready, hprobe]

lemma createSession_fresh (st : ManagerState) (sid purpose : String) (now : Nat)
    (ha : Backend.hasSession st.backend sid = false) :
    createSession st sid purpose now =
      Except.ok (sid, freshCreate (sessionExists st sid now).2 sid purpose now) := by
  simp [createSession, ha]

lemma createSession_misconfigured (st : ManagerState) (sid purpose : String)
    (now : Nat) (hsid : ¬ sid = "")
    (ha : Backend.hasSession st.backend sid = true)
    (hp : (sessionExists st sid now).1 = false) :
    createSession st sid purpose now =
      Except.ok (sid, freshCreate
        { backend := Backend.killSession (sessionExists st sid now).2.backend sid
          sessions := aldel (sessionExists st sid now).2.sessions sid
          sessionMetadata := aldel (sessionExists st sid now).2.sessionMetadata sid
          lastHealthCheck := aldel (sessionExists st sid now).2.lastHealthCheck sid }
        sid purpose now) := by
  have hb : Backend.hasSession (sessionExists st sid now).2.backend sid = true := by
    rw [sessionExists_backend]
    exact ha
  have hdes : destroySession (sessionExists st sid now).2 sid =
      Except.ok (true,
        { backend := Backend.killSession (sessionExists st sid now).2.backend sid
          sessions := aldel (sessionExists st sid now).2.sessions sid
          sessionMetadata := aldel (sessionExists st sid now).2.sessionMetadata sid
          lastHealthCheck :=
            aldel (sessionExists st sid now).2.lastHealthCheck sid }) := by
    rw [destroySession, if_neg hsid]
    simp [hb]
  simp [createSession, ha, hp, hdes]

lemma createSession_ok_windows (st : ManagerState) (sid purpose : String)
    (now : Nat) (hsid : ¬ sid = "") :
    ∃ st1, createSession st sid purpose now = Except.ok (sid, st1) ∧
      ∃ ws, Backend.listWindows st1.backend sid = some ws ∧
        requiredWindows ws = true := by
  by_cases hp : (sessionExists st sid now).1 = true
  · obtain ⟨ws, hw, hc, hst⟩ := sessionExists_eq_true_elim st sid now hp
    refine ⟨_, createSession_on_configured st sid purpose now hsid ws hw hc, ws, ?_, hc⟩
    rw [updateSessionMetadata_backend, updateSessionMetadata_backend]
    exact hw
  · have hp' : (sessionExists st sid now).1 = false := by
      cases h : (sessionExists st sid now).1
      · rfl
      · exact absurd h hp
    by_cases ha : Backend.hasSession st.backend sid = true
    · exact ⟨_, createSession_misconfigured st sid purpose now hsid ha hp',
        ["exec", "ui"], freshCreate_windows _ sid purpose now, requiredWindows_exec_ui⟩
    · have ha' : Backend.hasSession st.backend sid = false := by
        cases h : Backend.hasSession st.backend sid
        · rfl
        · exact absurd h ha
      exact ⟨_, createSession_fresh st sid purpose now ha',
        ["exec", "ui"], freshCreate_windows _ sid purpose now, requiredWindows_exec_ui⟩

/-- C5: createSession is idempotent for a fixed non-empty id: a first call
from any state succeeds with that id, and a second call with no intervening
destroy finds the live, correctly configured session (both required windows
present), refreshes its lastAccessed timestamp, and returns the same id
without touching the backend or the other registry maps; and when a session
exists on the backend but fails the window probe, createSession instead
destroys it and recreates it from scratch. -/
theorem createSession_idempotent (st : ManagerState) (sid purpose : String)
    (t1 t2 : Nat) (hsid : ¬ sid = "") :
    (∃ st1, createSession st sid purpose t1 = Except.ok (sid, st1)) ∧
    (∀ st1, createSession st sid purpose t1 = Except.ok (sid, st1) →
      ∃ st2, createSession st1 sid purpose t2 = Except.ok (sid, st2) ∧
        st2.backend = st1.backend ∧
        st2.sessions = st1.sessions ∧
        st2.lastHealthCheck = st1.lastHealthCheck ∧
        st2.sessionMetadata =
          (updateSessionMetadata st1 sid (touchUpdate t2)).sessionMetadata) ∧
    (Backend.hasSession st.backend sid = true →
      (sessionExists st sid t1).1 = false →
      createSession st sid purpose t1 =
        Except.ok (sid, freshCreate
          { backend := Backend.killSession (sessionExists st sid t1).2.backend sid
            sessions := aldel (sessionExists st sid t1).2.sessions sid
            sessionMetadata := aldel (sessionExists st sid t1).2.sessionMetadata sid
            lastHealthCheck := aldel (sessionExists st sid t1).2.lastHealthCheck sid }
          sid purpose t1)) := by
  refine ⟨?_, ?_, ?_⟩
  · obtain ⟨st1, heq, _⟩ := createSession_ok_windows st sid purpose t1 hsid
    exact ⟨st1, heq⟩
  · intro st1 h
    obtain ⟨st1', heq, ws, hw, hc⟩ := createSession_ok_windows st sid purpose t1 hsid
    rw [h] at heq
    have hsame : st1 = st1' := by
      simp only [Except.ok.injEq, Prod.mk.injEq] at heq
      exact heq.2
    subst hsame
    refine ⟨_, createSession_on_configured st1 sid purpose t2 hsid ws hw hc,
      ?_, ?_, ?_, ?_⟩
    · rw [updateSessionMetadata_backend, updateSessionMetadata_backend]
    · rw [updateSessionMetadata_sessions, updateSessionMetadata_sessions]
    · rw [updateSessionMetadata_lastHealthCheck, updateSessionMetadata_lastHealthCheck]
    · exact congrArg ManagerState.sessionMetadata
        (updateSessionMetadata_idem st1 sid (touchUpdate t2))
  · intro ha hp
    exact createSession_misconfigured st sid purpose t1 hsid ha hp

/-- Witness for C5: two calls for session "build" starting from the empty
manager state. -/
theorem createSession_idempotent_witness :
    (∃ st1, createSession (ManagerState.mk (Backend.mk []) [] [] []) "build"
      "general" 0 = Except.ok ("build", st1)) ∧
    (∀ st1, createSession (ManagerState.mk (Backend.mk []) [] [] []) "build"
        "general" 0 = Except.ok ("build", st1) →
      ∃ st2, createSession st1 "build" "general" 5 = Except.ok ("build", st2) ∧
        st2.backend = st1.backend ∧
        st2.sessions = st1.sessions ∧
        st2.lastHealthCheck = st1.lastHealthCheck ∧
        st2.sessionMetadata =
          (updateSessionMetadata st1 "build" (touchUpdate 5)).sessionMetadata) ∧
    (Backend.hasSession (ManagerState.mk (Backend.mk []) [] [] []).backend "build" =
        true →
      (sessionExists (ManagerState.mk (Backend.mk []) [] [] []) "build" 0).1 = false →
      createSession (ManagerState.mk (Backend.mk []) [] [] []) "build" "general" 0 =
        Except.ok ("build", freshCreate
          { backend := Backend.killSession
              (sessionExists (ManagerState.mk (Backend.mk []) [] [] [])
                "build" 0).2.backend "build"
            sessions := aldel
              (sessionExists (ManagerState.mk (Backend.mk []) [] [] [])
                "build" 0).2.sessions "build"
            sessionMetadata := aldel
              (sessionExists (ManagerState.mk (Backend.mk []) [] [] [])
                "build" 0).2.sessionMetadata "build"
            lastHealthCheck := aldel
              (sessionExists (ManagerState.mk (Backend.mk []) [] [] [])
                "build" 0).2.lastHealthCheck "build" }
          "build" "general" 0)) :=
  createSession_idempotent (ManagerState.mk (Backend.mk []) [] [] []) "build"
    "general" 0 5 (by decide)

/-- C7: evaluation of the cleanup sweep at a state holding one registered,
correctly configured session that has been idle for 31 minutes, past the
30-minute threshold. The claim (and the specification) says the sweep must
destroy it, but the embedded sessionExists call inside getSessionHealth
refreshes lastAccessed before the idle time is computed, so the sweep sees
an idle time of zero, cleans nothing, and the session survives with its
registry record rewritten rather than untouched. -/
theorem performLifecycleCleanup_idle_session_survives :
    maxIdleTime < 1860000 - 0 ∧
    (performLifecycleCleanup idleState 1860000).1 = [] ∧
    Backend.hasSession (performLifecycleCleanup idleState 1860000).2.backend
      "idle-sess" = true ∧
    Option.map SessionMeta.lastAccessed
        (alget (performLifecycleCleanup idleState 1860000).2.sessionMetadata
          "idle-sess") = some 1860000 := by
  refine ⟨by decide, by decide, by decide, by decide⟩

end PersistentShellMCP
